import Mathlib

/-!
Verification of the vote-engine core of `src/main.py`, a Telegram moderation
bot.  The bot keeps a process-wide dictionary `active_votes` with at most one
vote session per chat; `start_vote` creates a session after a chain of guards,
`process_vote` tallies ballots coming from inline-keyboard callbacks, and
`finalize_vote` (triggered by `end_vote_timer`) removes the session and applies
the mute/ban action when the approve count reaches the threshold.

All operations on one chat touch only the slot `active_votes[chat_id]`, so the
registry is modelled per chat as an `Option VoteData` slot.  Python `datetime`
timestamps are modelled as natural numbers (seconds); user ids are `Int` as in
the Telegram API.
-/

namespace VoteBot

/-- Vote kind: `/vote_mute` or `/vote_ban` (the `vote_type` string in the
source, restricted to its two possible values `"mute"`/`"ban"`). -/
inductive VoteType where
  | mute
  | ban
deriving DecidableEq, Repr

/-- A voter's choice, the `vote_option` component of the callback data
produced by the two inline-keyboard buttons (`"yes"` / `"no"`). -/
inductive VoteChoice where
  | yes
  | no
deriving DecidableEq, Repr

/-- Chat-member status as reported by the platform
(`aiogram.enums.ChatMemberStatus`); only the values the source inspects are
distinguished, everything else is `member`. -/
inductive MemberStatus where
  | creator
  | administrator
  | member
deriving DecidableEq, Repr

/-- Per-chat settings dictionary (`chat_settings[chat_id]`, defaulted from
`DEFAULT_SETTINGS` in the source). -/
structure ChatSettings where
  vote_duration : Nat
  mute_duration : Nat
  ban_duration : Nat
  votes_needed_mute : Nat
  votes_needed_ban : Nat
  auto_delete_timeout : Nat
deriving DecidableEq, Repr

/-- `DEFAULT_SETTINGS` of the source. -/
def DEFAULT_SETTINGS : ChatSettings :=
  { vote_duration := 300
    mute_duration := 300
    ban_duration := 0
    votes_needed_mute := 3
    votes_needed_ban := 5
    auto_delete_timeout := 300 }

/-- The dictionary stored in `active_votes[chat_id]` in `start_vote`
(lines 587-597 of the source). -/
structure VoteData where
  type : VoteType
  target_user_id : Int
  target_user_name : String
  votes_yes : Nat
  votes_no : Nat
  voters : Finset Int
  message_id : Nat
  end_time : Nat
  votes_needed : Nat
deriving DecidableEq

/-- Result of a `start_vote` call, one constructor per early-return branch of
the source plus success. -/
inductive StartResult where
  | alreadyActive
  | noReplyTarget
  | targetIsPrivileged
  | selfTarget
  | started
deriving DecidableEq, Repr

/-- Result reported to the caller by the `process_vote` callback handler. -/
inductive BallotResult where
  | ended
  | alreadyVoted
  | stale
  | accepted
deriving DecidableEq, Repr

/-- Moderation action issued by `finalize_vote`: `bot.restrict_chat_member`
with an `until_date`, or `bot.ban_chat_member` with or without one. -/
inductive ModAction where
  | restrict (target : Int) (untilDate : Nat)
  | banIndefinite (target : Int)
  | banUntil (target : Int) (untilDate : Nat)
deriving DecidableEq, Repr

/-- Per-chat mutable state the engine reads: the chat's settings, the
bot-assigned admin set `chat_admins[chat_id]`, and the `active_votes[chat_id]`
slot (`none` = no session). -/
structure ChatState where
  settings : ChatSettings
  admins : Finset Int
  active : Option VoteData
deriving DecidableEq

/-- The session dictionary built in the success branch of `start_vote`
(source lines 560-565 and 587-597): counters start at zero, the voter set is
empty, the deadline is `now + vote_duration`, and `votes_needed` is taken from
the settings according to the vote kind. -/
def mkSession (settings : ChatSettings) (vtype : VoteType) (target_user_id : Int)
    (target_user_name : String) (message_id now : Nat) : VoteData :=
  { type := vtype
    target_user_id := target_user_id
    target_user_name := target_user_name
    votes_yes := 0
    votes_no := 0
    voters := ∅
    message_id := message_id
    end_time := now + settings.vote_duration
    votes_needed :=
      match vtype with
      | .mute => settings.votes_needed_mute
      | .ban => settings.votes_needed_ban }

/-- `start_vote` (source lines 514-599): guard chain, then session creation.
`reply` is `message.reply_to_message`'s author (`none` when the command is not
a reply); `memberStatus` is the result of `bot.get_chat_member` for the
target, `none` when that call raises (the source catches the exception, logs
it, and falls through to the next guard).  The assigned-admin set
`st.admins` is available to the function but — like the source, which never
calls `get_chat_admins` here — is not consulted. -/
def start_vote (st : ChatState) (initiator : Int) (reply : Option (Int × String))
    (memberStatus : Option MemberStatus) (vtype : VoteType) (message_id now : Nat) :
    StartResult × ChatState :=
  match st.active with
  | some _ => (.alreadyActive, st)
  | none =>
    match reply with
    | none => (.noReplyTarget, st)
    | some (target_user_id, target_user_name) =>
      if memberStatus = some .administrator ∨ memberStatus = some .creator then
        (.targetIsPrivileged, st)
      else if target_user_id = initiator then
        (.selfTarget, st)
      else
        let s := mkSession st.settings vtype target_user_id target_user_name message_id now
        (.started, { st with active := some s })

/-- `process_vote` (source lines 646-704) on the chat's slot: the handler
returns early when no vote is active, when the caller already voted, or when
the callback's declared `(vote_type, target_user_id)` does not match the
session; otherwise it increments the matching counter and records the voter.
The declared pair comes from `callback.data` (`parts[2]`, `parts[3]`). -/
def process_vote (slot : Option VoteData) (user_id : Int) (choice : VoteChoice)
    (declType : VoteType) (declTarget : Int) : BallotResult × Option VoteData :=
  match slot with
  | none => (.ended, none)
  | some vd =>
    if user_id ∈ vd.voters then
      (.alreadyVoted, some vd)
    else if declTarget ≠ vd.target_user_id ∨ declType ≠ vd.type then
      (.stale, some vd)
    else
      let vd' :=
        match choice with
        | .yes => { vd with votes_yes := vd.votes_yes + 1 }
        | .no => { vd with votes_no := vd.votes_no + 1 }
      (.accepted, some { vd' with voters := insert user_id vd'.voters })

/-- `finalize_vote` (source lines 716-787) on the chat's slot: early return if
no session (line 718), `active_votes.pop(chat_id)` (line 722), then the
decision `votes_yes >= votes_needed` (line 742); a mute always restricts with
`until_date = now + mute_duration`, a ban is indefinite exactly when the
configured `ban_duration` is `0`.  `settings` is re-read from
`get_chat_settings` at finalize time (line 721). -/
def finalize_vote (settings : ChatSettings) (slot : Option VoteData) (now : Nat) :
    Option ModAction × Option VoteData :=
  match slot with
  | none => (none, none)
  | some vd =>
    if vd.votes_yes ≥ vd.votes_needed then
      match vd.type with
      | .mute => (some (.restrict vd.target_user_id (now + settings.mute_duration)), none)
      | .ban =>
        if settings.ban_duration = 0 then
          (some (.banIndefinite vd.target_user_id), none)
        else
          (some (.banUntil vd.target_user_id (now + settings.ban_duration)), none)
    else (none, none)

/-- `end_vote_timer` (source lines 707-713) sleeps `vote_duration` seconds
after being armed at session creation and only then calls `finalize_vote`:
the instant at which the timer fires. -/
def timerFireTime (armTime : Nat) (settings : ChatSettings) : Nat :=
  armTime + settings.vote_duration


/-- A concrete finished session used to instantiate the threshold-boundary
cases of the spec: `threshold = 3`. -/
def boundarySession (yes no : Nat) : VoteData :=
  { type := .mute
    target_user_id := 42
    target_user_name := "T"
    votes_yes := yes
    votes_no := no
    voters := ∅
    message_id := 1
    end_time := 300
    votes_needed := 3 }

/-- One call to the `process_vote` callback handler: the caller's id and the
three components parsed from `callback.data` (`vote_{option}_{type}_{target}`,
source lines 668-671). -/
structure BallotCall where
  user_id : Int
  choice : VoteChoice
  declType : VoteType
  declTarget : Int
deriving DecidableEq

/-- The chat's `active_votes` slot after a sequence of `process_vote` calls. -/
def castList (slot : Option VoteData) : List BallotCall → Option VoteData
  | [] => slot
  | b :: l => castList (process_vote slot b.user_id b.choice b.declType b.declTarget).2 l

/-- A sequence of `process_vote` calls, instrumented: returns the final slot
together with the list of voter ids whose ballots were accepted, in order. -/
def runBallots (slot : Option VoteData) : List BallotCall → Option VoteData × List Int
  | [] => (slot, [])
  | b :: l =>
    let step := process_vote slot b.user_id b.choice b.declType b.declTarget
    let rest := runBallots step.2 l
    (rest.1, if step.1 = .accepted then b.user_id :: rest.2 else rest.2)

/-- First failing guard of a list, with `started` when all pass.  Used only
by `canStartSpec`. -/
def firstFailing : List (Bool × StartResult) → StartResult
  | [] => .started
  | (b, r) :: rest => if b then r else firstFailing rest

/-- Modelled from the spec wording of the eligibility policy: the reasons in
priority order `VoteAlreadyActive`, `NoReplyTarget`, `TargetIsPrivileged`,
`SelfTarget`, evaluated top-to-bottom with the first failing reason
returned.  This is the comparison target for the guard order of
`start_vote`, not a translation of the source. -/
def canStartSpec (st : ChatState) (initiator : Int) (reply : Option (Int × String))
    (memberStatus : Option MemberStatus) : StartResult :=
  firstFailing
    [ (st.active.isSome, .alreadyActive),
      (reply.isNone, .noReplyTarget),
      (memberStatus == some .administrator || memberStatus == some .creator,
        .targetIsPrivileged),
      (reply.map Prod.fst == some initiator, .selfTarget) ]

/-- A chat whose bot-assigned admin list contains user 42, with no vote
active. -/
def assignedAdminChat : ChatState :=
  { settings := DEFAULT_SETTINGS, admins := {42}, active := none }

/-- A mute session against user 42 in which user 5 has already voted. -/
def staleDemoSession : VoteData :=
  { type := .mute
    target_user_id := 42
    target_user_name := "T"
    votes_yes := 1
    votes_no := 0
    voters := {5}
    message_id := 1
    end_time := 300
    votes_needed := 3 }

/-- Arguments of one `start_vote` invocation, fixed when the handler fires. -/
structure StartCall where
  initiator : Int
  reply : Option (Int × String)
  memberStatus : Option MemberStatus
  vtype : VoteType
  message_id : Nat
  now : Nat
deriving DecidableEq

/-- Progress of one `start_vote` coroutine under asyncio's cooperative
scheduling.  Code between two `await`s runs atomically; `start_vote` checks
`chat_id in active_votes` at line 519 and only assigns
`active_votes[chat_id]` at line 587, suspending in between at the awaits of
lines 527-582 (`message.answer`, `bot.get_chat_member`).  `phase 0` = about
to run the check, `phase 1` = passed the check and suspended before the
remaining guards and the insert, `phase 2` = returned. -/
structure StartTask where
  call : StartCall
  phase : Nat
  result : Option StartResult
deriving DecidableEq

/-- Resuming a `start_vote` coroutine that already passed the line-519 check:
the remaining code never re-reads `active_votes`, so its behavior is that of
`start_vote` on an empty slot; the returned slot value is the session it
assigns, if it reaches line 587. -/
def resumeStart (settings : ChatSettings) (admins : Finset Int) (c : StartCall) :
    StartResult × Option VoteData :=
  let r := start_vote ⟨settings, admins, none⟩ c.initiator c.reply c.memberStatus
    c.vtype c.message_id c.now
  (r.1, r.2.active)

/-- One scheduling step of a `start_vote` coroutine against the shared
`active_votes[chat_id]` slot.  The line-587 assignment is unconditional: it
overwrites whatever the slot holds at resume time. -/
def stepTask (settings : ChatSettings) (admins : Finset Int) (slot : Option VoteData)
    (t : StartTask) : Option VoteData × StartTask :=
  if t.phase = 0 then
    match slot with
    | some _ => (slot, { t with phase := 2, result := some .alreadyActive })
    | none => (slot, { t with phase := 1 })
  else if t.phase = 1 then
    let r := resumeStart settings admins t.call
    let slot' :=
      match r.2 with
      | some vd => some vd
      | none => slot
    (slot', { t with phase := 2, result := some r.1 })
  else (slot, t)

/-- Shared slot plus two concurrent `start_vote` coroutines for one chat. -/
structure SchedState where
  slot : Option VoteData
  t0 : StartTask
  t1 : StartTask
deriving DecidableEq

/-- Run the coroutine picked by the scheduler for one atomic segment. -/
def schedStep (settings : ChatSettings) (admins : Finset Int) (st : SchedState)
    (pick : Bool) : SchedState :=
  if pick then
    let r := stepTask settings admins st.slot st.t1
    { st with slot := r.1, t1 := r.2 }
  else
    let r := stepTask settings admins st.slot st.t0
    { st with slot := r.1, t0 := r.2 }

/-- Run a whole schedule, one picked coroutine per entry. -/
def runSched (settings : ChatSettings) (admins : Finset Int) :
    List Bool → SchedState → SchedState
  | [], st => st
  | p :: l, st => runSched settings admins l (schedStep settings admins st p)

/-- Two start requests for the same chat by different initiators against the
same target, both passing every guard. -/
def raceCall0 : StartCall := ⟨7, some (42, "T"), some .member, .mute, 1, 0⟩

/-- The second concurrent start request. -/
def raceCall1 : StartCall := ⟨8, some (42, "T"), some .member, .mute, 2, 0⟩

/-- Initial scheduler state: no active vote, both coroutines at their
line-519 check. -/
def raceInit : SchedState := ⟨none, ⟨raceCall0, 0, none⟩, ⟨raceCall1, 0, none⟩⟩

/-- A ballot from a voter already recorded takes the `already voted` early
return (source lines 661-666) and leaves the session untouched. -/
theorem process_vote_of_mem (vd : VoteData) (u : Int) (c : VoteChoice)
    (k : VoteType) (t : Int) (h : u ∈ vd.voters) :
    process_vote (some vd) u c k t = (.alreadyVoted, some vd) := by
  simp [process_vote, h]

/-- A mismatched ballot from a new voter takes the `stale` early return
(source lines 673-678) and leaves the session untouched. -/
theorem process_vote_of_stale (vd : VoteData) (u : Int) (c : VoteChoice)
    (k : VoteType) (t : Int) (h : u ∉ vd.voters)
    (hm : t ≠ vd.target_user_id ∨ k ≠ vd.type) :
    process_vote (some vd) u c k t = (.stale, some vd) := by
  simp [process_vote, h, hm]

/-- A matching ballot from a new voter is accepted: the chosen counter is
incremented and the voter recorded (source lines 680-685). -/
theorem process_vote_of_accept (vd : VoteData) (u : Int) (c : VoteChoice)
    (h : u ∉ vd.voters) :
    process_vote (some vd) u c vd.type vd.target_user_id =
      (.accepted, some
        { (match c with
           | .yes => { vd with votes_yes := vd.votes_yes + 1 }
           | .no => { vd with votes_no := vd.votes_no + 1 }) with
          voters := insert u vd.voters }) := by
  cases c <;> simp [process_vote, h]

/-- `process_vote` never clears the slot: every branch on an active session
returns the session (possibly updated), and only `finalize_vote` removes it. -/
theorem process_vote_keeps_slot (vd : VoteData) (u : Int) (c : VoteChoice)
    (k : VoteType) (t : Int) :
    ∃ vd', (process_vote (some vd) u c k t).2 = some vd' := by
  by_cases h : u ∈ vd.voters
  · exact ⟨vd, by simp [process_vote_of_mem vd u c k t h]⟩
  · by_cases hm : t ≠ vd.target_user_id ∨ k ≠ vd.type
    · exact ⟨vd, by simp [process_vote_of_stale vd u c k t h hm]⟩
    · push_neg at hm
      obtain ⟨ht, hk⟩ := hm
      subst ht; subst hk
      exact ⟨_, by rw [process_vote_of_accept vd u c h]⟩

/-- Core tally invariant, generalized for induction: starting from any
session whose counters sum to the voter-set size, a run of `process_vote`
calls keeps the slot occupied, accepts each voter at most once, and grows the
voter set by exactly the accepted voters. -/
theorem runBallots_spec (l : List BallotCall) :
    ∀ (vd : VoteData), vd.votes_yes + vd.votes_no = vd.voters.card →
      ∃ vf acc, runBallots (some vd) l = (some vf, acc)
        ∧ vf.voters = vd.voters ∪ acc.toFinset
        ∧ acc.Nodup
        ∧ (∀ u ∈ acc, u ∉ vd.voters)
        ∧ vf.votes_yes + vf.votes_no = vf.voters.card := by
  induction l with
  | nil =>
    intro vd h
    exact ⟨vd, [], rfl, by simp, List.nodup_nil, by simp, h⟩
  | cons b l ih =>
    intro vd h
    by_cases hmem : b.user_id ∈ vd.voters
    · obtain ⟨vf, acc, hrun, hv, hnd, hnotin, hinv⟩ := ih vd h
      refine ⟨vf, acc, ?_, hv, hnd, hnotin, hinv⟩
      simp [runBallots, process_vote_of_mem _ _ _ _ _ hmem, hrun]
    · by_cases hst : b.declTarget ≠ vd.target_user_id ∨ b.declType ≠ vd.type
      · obtain ⟨vf, acc, hrun, hv, hnd, hnotin, hinv⟩ := ih vd h
        refine ⟨vf, acc, ?_, hv, hnd, hnotin, hinv⟩
        simp [runBallots, process_vote_of_stale _ _ _ _ _ hmem hst, hrun]
      · push_neg at hst
        obtain ⟨ht, hk⟩ := hst
        obtain ⟨vd1, hstep, hvoters1, hsum1⟩ :
            ∃ vd1, process_vote (some vd) b.user_id b.choice b.declType b.declTarget =
                (.accepted, some vd1)
              ∧ vd1.voters = insert b.user_id vd.voters
              ∧ vd1.votes_yes + vd1.votes_no = vd.votes_yes + vd.votes_no + 1 := by
          cases hc : b.choice with
          | yes =>
            exact ⟨_, by rw [ht, hk]; simpa using process_vote_of_accept vd b.user_id .yes hmem,
              rfl, by simp; omega⟩
          | no =>
            exact ⟨_, by rw [ht, hk]; simpa using process_vote_of_accept vd b.user_id .no hmem,
              rfl, by simp; omega⟩
        obtain ⟨vf, acc, hrun, hv, hnd, hnotin, hinv⟩ := ih vd1 (by
          rw [hsum1, hvoters1, Finset.card_insert_of_not_mem hmem, h])
        have hunotacc : b.user_id ∉ acc := fun hu =>
          hnotin b.user_id hu (hvoters1 ▸ Finset.mem_insert_self _ _)
        refine ⟨vf, b.user_id :: acc, ?_, ?_, List.nodup_cons.mpr ⟨hunotacc, hnd⟩, ?_, hinv⟩
        · simp [runBallots, hstep, hrun]
        · rw [hv, hvoters1]
          simp only [List.toFinset_cons]
          rw [Finset.insert_union, Finset.union_insert]
        · intro u hu
          rcases List.mem_cons.mp hu with rfl | hu2
          · exact hmem
          · exact fun hcontra =>
              hnotin u hu2 (hvoters1 ▸ Finset.mem_insert_of_mem hcontra)

/-- Inversion of a successful start: a `started` result means there was no
active vote, the command was a reply, and the new slot holds exactly the
freshly built session of lines 587-597. -/
theorem start_vote_started (st : ChatState) (i : Int) (reply : Option (Int × String))
    (ms : Option MemberStatus) (vt : VoteType) (mid now : Nat) (st' : ChatState)
    (h : start_vote st i reply ms vt mid now = (.started, st')) :
    ∃ t n, reply = some (t, n)
      ∧ st'.active = some (mkSession st.settings vt t n mid now) := by
  unfold start_vote at h
  cases hA : st.active with
  | some vd => rw [hA] at h; simp at h
  | none =>
    rw [hA] at h
    cases reply with
    | none => simp at h
    | some p =>
      obtain ⟨t, n⟩ := p
      by_cases h1 : ms = some MemberStatus.administrator ∨ ms = some MemberStatus.creator
      · simp [h1] at h
      · by_cases h2 : t = i
        · simp [h1, h2] at h
        · simp only [h1, h2, if_false, if_neg] at h
          refine ⟨t, n, rfl, ?_⟩
          rw [← (Prod.mk.injEq _ _ _ _ |>.mp h).2]

/-- Claim C6: `start_vote` evaluates its guards in the spec's fixed priority
order — its result is exactly the first failing reason of `canStartSpec` —
a failing guard leaves the chat state untouched, and only when all guards
pass is a session created. -/
theorem start_vote_guard_order (st : ChatState) (i : Int)
    (reply : Option (Int × String)) (ms : Option MemberStatus) (vt : VoteType)
    (mid now : Nat) :
    (start_vote st i reply ms vt mid now).1 = canStartSpec st i reply ms
    ∧ ((start_vote st i reply ms vt mid now).1 ≠ .started →
        (start_vote st i reply ms vt mid now).2 = st)
    ∧ ((start_vote st i reply ms vt mid now).1 = .started →
        ∃ s, (start_vote st i reply ms vt mid now).2.active = some s) := by
  cases hA : st.active with
  | some vd =>
    simp [start_vote, canStartSpec, firstFailing, hA]
  | none =>
    cases reply with
    | none => simp [start_vote, canStartSpec, firstFailing, hA]
    | some p =>
      obtain ⟨t, n⟩ := p
      by_cases h1 : ms = some MemberStatus.administrator ∨ ms = some MemberStatus.creator
      · simp [start_vote, canStartSpec, firstFailing, hA, h1]
      · by_cases h2 : t = i
        · simp [start_vote, canStartSpec, firstFailing, hA, h1, h2]
        · simp [start_vote, canStartSpec, firstFailing, hA, h1, h2]

/-- Concrete instantiation of `start_vote_guard_order`: an active vote makes
the guard chain stop at `alreadyActive` and leaves the chat state unchanged. -/
theorem start_vote_guard_order_witness :
    (start_vote ⟨DEFAULT_SETTINGS, ∅, some (boundarySession 0 0)⟩ 7 (some (42, "T"))
        (some .member) .mute 1 0).1
      = canStartSpec ⟨DEFAULT_SETTINGS, ∅, some (boundarySession 0 0)⟩ 7 (some (42, "T"))
        (some .member)
    ∧ (start_vote ⟨DEFAULT_SETTINGS, ∅, some (boundarySession 0 0)⟩ 7 (some (42, "T"))
        (some .member) .mute 1 0).2
      = ⟨DEFAULT_SETTINGS, ∅, some (boundarySession 0 0)⟩ := by
  have h := start_vote_guard_order ⟨DEFAULT_SETTINGS, ∅, some (boundarySession 0 0)⟩ 7
    (some (42, "T")) (some .member) .mute 1 0
  exact ⟨h.1, h.2.1 (by decide)⟩

/-- Counterexample to claim C5: user 42 is on the bot's per-chat assigned
admin list but is a plain member to the platform; a vote against 42 is not
rejected with `targetIsPrivileged` — it starts and creates a session. -/
theorem assigned_admin_target_not_rejected :
    (42 : Int) ∈ assignedAdminChat.admins
    ∧ (start_vote assignedAdminChat 7 (some (42, "T")) (some .member) .mute 1 0).1
        = .started
    ∧ (start_vote assignedAdminChat 7 (some (42, "T")) (some .member) .mute 1 0).2.active.isSome
        = true := by
  exact ⟨by decide, rfl, rfl⟩

/-- Claim C5 as amended: a target whose platform-reported status is admin or
owner is rejected with `targetIsPrivileged` and no session is created,
regardless of the initiator; bot-assigned admin status alone confers no
immunity. -/
theorem platform_privileged_target_rejected (st : ChatState) (i target : Int)
    (name : String) (ms : MemberStatus) (vt : VoteType) (mid now : Nat)
    (hactive : st.active = none)
    (hms : ms = .administrator ∨ ms = .creator) :
    start_vote st i (some (target, name)) (some ms) vt mid now
      = (.targetIsPrivileged, st) := by
  rcases hms with rfl | rfl <;> simp [start_vote, hactive]

/-- Concrete instantiation of `platform_privileged_target_rejected`: a
platform administrator target, assigned-admin list empty. -/
theorem platform_privileged_target_rejected_witness :
    start_vote ⟨DEFAULT_SETTINGS, ∅, none⟩ 7 (some (42, "T")) (some .administrator)
        .mute 1 0
      = (.targetIsPrivileged, ⟨DEFAULT_SETTINGS, ∅, none⟩) :=
  platform_privileged_target_rejected ⟨DEFAULT_SETTINGS, ∅, none⟩ 7 42 "T"
    .administrator .mute 1 0 rfl (Or.inl rfl)

/-- Counterexample to claim C7: a ballot whose declared target (43) does not
match the session's (42) but whose sender already voted is answered with the
`already voted` notice, not the `no longer valid` one — the already-voted
check precedes the staleness check in the handler. -/
theorem stale_notice_counterexample :
    (43 : Int) ≠ staleDemoSession.target_user_id
    ∧ (process_vote (some staleDemoSession) 5 .yes .mute 43).1 ≠ .stale
    ∧ (process_vote (some staleDemoSession) 5 .yes .mute 43).1 = .alreadyVoted := by
  exact ⟨by decide, by decide, by decide⟩

/-- Claim C7 as amended: a mismatched ballot never mutates the session; it is
answered with the `no longer valid` notice when its sender has not voted yet,
and with the `already voted` notice (which takes precedence) when they have. -/
theorem stale_ballot_dropped (vd : VoteData) (u : Int) (c : VoteChoice)
    (k : VoteType) (t : Int) (hm : t ≠ vd.target_user_id ∨ k ≠ vd.type) :
    (process_vote (some vd) u c k t).2 = some vd
    ∧ (u ∉ vd.voters → (process_vote (some vd) u c k t).1 = .stale)
    ∧ (u ∈ vd.voters → (process_vote (some vd) u c k t).1 = .alreadyVoted) := by
  by_cases h : u ∈ vd.voters
  · rw [process_vote_of_mem vd u c k t h]
    exact ⟨rfl, fun hn => absurd h hn, fun _ => rfl⟩
  · rw [process_vote_of_stale vd u c k t h hm]
    exact ⟨rfl, fun _ => rfl, fun hmem => absurd hmem h⟩

/-- Concrete instantiation of `stale_ballot_dropped`: a fresh voter's
mismatched ballot is dropped with the stale notice and no mutation. -/
theorem stale_ballot_dropped_witness :
    (process_vote (some staleDemoSession) 9 .yes .mute 43).2 = some staleDemoSession
    ∧ (process_vote (some staleDemoSession) 9 .yes .mute 43).1 = .stale := by
  have h := stale_ballot_dropped staleDemoSession 9 .yes .mute 43 (by decide)
  exact ⟨h.1, h.2.1 (by decide)⟩

/-- Claim C9: when the action triggers, the durations come from the settings
passed to `finalize_vote` — the chat configuration as read at finalize time,
the creation-time settings `s0` being irrelevant — a mute always restricts
with the bounded `until` date `now + mute_duration`, and a ban is indefinite
exactly when the configured ban duration is `0`. -/
theorem finalize_action_durations (s0 s1 : ChatSettings) (vt : VoteType)
    (target : Int) (name : String) (mid now0 now : Nat) (l : List BallotCall)
    (vd : VoteData)
    (_hrun : castList (some (mkSession s0 vt target name mid now0)) l = some vd)
    (htrig : vd.votes_yes ≥ vd.votes_needed) :
    (vd.type = .mute →
      (finalize_vote s1 (some vd) now).1
        = some (.restrict vd.target_user_id (now + s1.mute_duration)))
    ∧ (vd.type = .ban → s1.ban_duration = 0 →
        (finalize_vote s1 (some vd) now).1 = some (.banIndefinite vd.target_user_id))
    ∧ (vd.type = .ban → s1.ban_duration ≠ 0 →
        (finalize_vote s1 (some vd) now).1
          = some (.banUntil vd.target_user_id (now + s1.ban_duration))) := by
  refine ⟨fun hmute => ?_, fun hban hb0 => ?_, fun hban hb0 => ?_⟩
  · simp [finalize_vote, htrig, hmute]
  · simp [finalize_vote, htrig, hban, hb0]
  · simp [finalize_vote, htrig, hban, hb0]

/-- Concrete instantiation of `finalize_action_durations`: the session was
created while `mute_duration` was `77`, the finalize-time settings say `300`,
and the issued restriction uses `300`. -/
theorem finalize_action_durations_witness :
    (finalize_vote DEFAULT_SETTINGS
        (some (mkSession ⟨300, 77, 0, 0, 5, 300⟩ .mute 42 "T" 1 0)) 10).1
      = some (.restrict 42 (10 + 300)) :=
  (finalize_action_durations ⟨300, 77, 0, 0, 5, 300⟩ DEFAULT_SETTINGS .mute 42 "T" 1 0 10
    [] (mkSession ⟨300, 77, 0, 0, 5, 300⟩ .mute 42 "T" 1 0) rfl (by decide)).1 rfl

/-- Claim C10: when the platform member-status lookup raises (modelled as
`none`), `start_vote` behaves exactly as if the target were an unprivileged
member — the privileged-target guard is skipped — and with the remaining
guards passing the vote starts. -/
theorem lookup_failure_skips_privileged_guard (st : ChatState) (i target : Int)
    (name : String) (vt : VoteType) (mid now : Nat) :
    start_vote st i (some (target, name)) none vt mid now
      = start_vote st i (some (target, name)) (some .member) vt mid now
    ∧ (st.active = none → target ≠ i →
        (start_vote st i (some (target, name)) none vt mid now).1 = .started) := by
  constructor
  · cases hA : st.active <;> simp [start_vote, hA]
  · intro ha hne
    simp [start_vote, ha, hne]

/-- Concrete instantiation of `lookup_failure_skips_privileged_guard`. -/
theorem lookup_failure_skips_privileged_guard_witness :
    start_vote ⟨DEFAULT_SETTINGS, ∅, none⟩ 7 (some (42, "T")) none .mute 1 0
      = start_vote ⟨DEFAULT_SETTINGS, ∅, none⟩ 7 (some (42, "T")) (some .member) .mute 1 0
    ∧ (start_vote ⟨DEFAULT_SETTINGS, ∅, none⟩ 7 (some (42, "T")) none .mute 1 0).1
        = .started := by
  have h := lookup_failure_skips_privileged_guard ⟨DEFAULT_SETTINGS, ∅, none⟩ 7 42 "T"
    .mute 1 0
  exact ⟨h.1, h.2 rfl (by decide)⟩

/-- Claim C4: for any sequence of ballot calls on a freshly started session,
the final `votes_yes + votes_no` equals the number of distinct voters whose
ballots were accepted, each voter is accepted at most once (the accepted list
has no duplicates and equals the final voter set), and a repeated ballot from
a recorded voter leaves the session unchanged with the soft `alreadyVoted`
result. -/
theorem castBallot_tally_invariant (st : ChatState) (i : Int)
    (reply : Option (Int × String)) (ms : Option MemberStatus) (vt : VoteType)
    (mid now : Nat) (st' : ChatState) (vd0 : VoteData) (l : List BallotCall)
    (hstart : start_vote st i reply ms vt mid now = (.started, st'))
    (hslot : st'.active = some vd0) :
    (∃ vf acc, runBallots (some vd0) l = (some vf, acc)
      ∧ vf.votes_yes + vf.votes_no = acc.length
      ∧ acc.Nodup
      ∧ vf.voters = acc.toFinset)
    ∧ ∀ (vd : VoteData) (u : Int) (c : VoteChoice) (k : VoteType) (t : Int),
        u ∈ vd.voters → process_vote (some vd) u c k t = (.alreadyVoted, some vd) := by
  constructor
  · obtain ⟨t, n, -, hs⟩ := start_vote_started st i reply ms vt mid now st' hstart
    rw [hslot] at hs
    obtain rfl : vd0 = mkSession st.settings vt t n mid now := Option.some.injEq _ _ ▸ hs
    obtain ⟨vf, acc, hrun, hv, hnd, hnotin, hinv⟩ :=
      runBallots_spec l (mkSession st.settings vt t n mid now) (by simp [mkSession])
    refine ⟨vf, acc, hrun, ?_, hnd, ?_⟩
    · rw [hinv, hv]
      simp [mkSession, List.toFinset_card_of_nodup hnd]
    · rw [hv]; simp [mkSession]
  · exact fun vd u c k t h => process_vote_of_mem vd u c k t h

/-- Concrete instantiation of `castBallot_tally_invariant`: a fresh mute
session in a chat with default settings, one accepted ballot, and a repeated
ballot bouncing off a session that already recorded voter 5. -/
theorem castBallot_tally_invariant_witness :
    (∃ vf acc, runBallots (some (mkSession DEFAULT_SETTINGS .mute 42 "T" 1 0))
        [⟨5, .yes, .mute, 42⟩] = (some vf, acc)
      ∧ vf.votes_yes + vf.votes_no = acc.length
      ∧ acc.Nodup
      ∧ vf.voters = acc.toFinset)
    ∧ process_vote (some (boundarySession 3 0 |> fun vd => { vd with voters := {5} }))
        5 .yes .mute 42
        = (.alreadyVoted, some (boundarySession 3 0 |> fun vd => { vd with voters := {5} })) := by
  have h := castBallot_tally_invariant ⟨DEFAULT_SETTINGS, ∅, none⟩ 7 (some (42, "T"))
    (some .member) .mute 1 0
    ⟨DEFAULT_SETTINGS, ∅, some (mkSession DEFAULT_SETTINGS .mute 42 "T" 1 0)⟩
    (mkSession DEFAULT_SETTINGS .mute 42 "T" 1 0) [⟨5, .yes, .mute, 42⟩] rfl rfl
  exact ⟨h.1, h.2 _ 5 .yes .mute 42 (by decide)⟩

/-- Claim C2 fails on the code: under the interleaving in which both
coroutines run the `chat_id in active_votes` check before either reaches the
line-587 assignment, both report success — there is no `alreadyActive`
rejection, and the second assignment overwrites the first session.  Run
sequentially (second coroutine checks only after the first finished), the
claimed one-success-one-rejection outcome does hold, showing the failure is
precisely the lost atomicity between check and insert. -/
theorem concurrent_start_both_succeed :
    (runSched DEFAULT_SETTINGS ∅ [false, true, false, true] raceInit).t0.result
      = some .started
    ∧ (runSched DEFAULT_SETTINGS ∅ [false, true, false, true] raceInit).t1.result
      = some .started
    ∧ (runSched DEFAULT_SETTINGS ∅ [false, true, false, true] raceInit).slot
      = some (mkSession DEFAULT_SETTINGS .mute 42 "T" 2 0)
    ∧ (runSched DEFAULT_SETTINGS ∅ [false, false, true, true] raceInit).t0.result
      = some .started
    ∧ (runSched DEFAULT_SETTINGS ∅ [false, false, true, true] raceInit).t1.result
      = some .alreadyActive := by
  exact ⟨by decide, by decide, by decide, by decide, by decide⟩

/-- A run of `process_vote` calls never empties the slot: only
`finalize_vote` removes a session. -/
theorem castList_isSome (l : List BallotCall) :
    ∀ (vd : VoteData), ∃ vf, castList (some vd) l = some vf := by
  induction l with
  | nil => exact fun vd => ⟨vd, rfl⟩
  | cons b l ih =>
    intro vd
    obtain ⟨vd', h'⟩ := process_vote_keeps_slot vd b.user_id b.choice b.declType b.declTarget
    obtain ⟨vf, hf⟩ := ih vd'
    exact ⟨vf, by simpa [castList, h'] using hf⟩

/-- Claim C8: no cast sequence ever finalizes a session — whatever ballots
arrive, including enough approvals to meet the threshold, the session is
still in the registry afterwards — and the deadline timer invokes finalize
exactly at the session's `end_time`, i.e. creation time plus the full
configured vote duration. -/
theorem no_early_finalize (s : ChatSettings) (vt : VoteType) (target : Int)
    (name : String) (mid now : Nat) (l : List BallotCall) :
    (∃ vf, castList (some (mkSession s vt target name mid now)) l = some vf)
    ∧ timerFireTime now s = (mkSession s vt target name mid now).end_time := by
  exact ⟨castList_isSome l _, rfl⟩

/-- Claim C3: duplicate finalization is harmless.  `finalize_vote` on an empty
slot is a no-op with no action; on an active session it always clears the
slot, and a second invocation on the cleared slot performs no action and no
further removal. -/
theorem finalize_exactly_once :
    ∀ (s : ChatSettings) (vd : VoteData) (now1 now2 : Nat),
      finalize_vote s none now1 = (none, none)
      ∧ (finalize_vote s (some vd) now1).2 = none
      ∧ finalize_vote s (finalize_vote s (some vd) now1).2 now2 = (none, none) := by
  intro s vd now1 now2
  have hsnd : (finalize_vote s (some vd) now1).2 = none := by
    by_cases h : vd.votes_yes ≥ vd.votes_needed
    · simp only [finalize_vote, if_pos h]
      cases vd.type with
      | mute => rfl
      | ban => by_cases hb : s.ban_duration = 0 <;> simp [hb]
    · simp [finalize_vote, if_neg h]
  exact ⟨rfl, hsnd, by rw [hsnd]; rfl⟩

/-- Claim C1: at finalize, the moderation action triggers iff
`votes_yes ≥ votes_needed`; the reject count is irrelevant — replacing
`votes_no` by anything leaves the whole result unchanged — and at
`threshold = 3`: 2 approvals do nothing, 3 fire, and 5 approvals with 10
rejects still fire. -/
theorem finalize_triggers_iff_threshold :
    (∀ (s : ChatSettings) (vd : VoteData) (now : Nat),
        (finalize_vote s (some vd) now).1.isSome = true ↔ vd.votes_yes ≥ vd.votes_needed)
    ∧ (∀ (s : ChatSettings) (vd : VoteData) (now n : Nat),
        finalize_vote s (some { vd with votes_no := n }) now = finalize_vote s (some vd) now)
    ∧ (finalize_vote DEFAULT_SETTINGS (some (boundarySession 2 0)) 0).1 = none
    ∧ (finalize_vote DEFAULT_SETTINGS (some (boundarySession 3 0)) 0).1.isSome = true
    ∧ (finalize_vote DEFAULT_SETTINGS (some (boundarySession 5 10)) 0).1.isSome = true := by
  refine ⟨?_, ?_, by decide, by decide, by decide⟩
  · intro s vd now
    by_cases h : vd.votes_yes ≥ vd.votes_needed
    · simp only [finalize_vote, if_pos h]
      cases vd.type with
      | mute => simpa using h
      | ban =>
        by_cases hb : s.ban_duration = 0 <;> simp [hb, h]
    · simp [finalize_vote, if_neg h, h]
  · intro s vd now n
    by_cases h : vd.votes_yes ≥ vd.votes_needed
    · simp only [finalize_vote, if_pos h]
    · simp only [finalize_vote, if_neg h]

end VoteBot
